import Mathlib

/-!
Shallow embedding of the `mihm` repository's core:

* `src/mihm/model/bayes_mihm.py` — the two probabilistic model variants
  `BayesMIHM` and `RelaxedBayesMIHM` (construction checks, `forward`,
  `get_resilience_index`, the declared priors / sample sites);
* `src/hyperparameter_search.py` — the ray-tune search space, the ASHA
  scheduler configuration and best-trial selection;
* `src/mihm/hyperparam/eval.py` — `evaluate_significance`'s dataframe
  mutation and save-path computation.

Modelling conventions:

* A per-observation tensor row is a `List ℚ` (exact rational idealisation of
  torch float tensors); a weight matrix is a `List (List ℚ)` of rows.
* `F.gelu` is transcendental; it is abstracted as a function parameter
  `gelu : ℚ → ℚ` — every structural claim proved here holds for an arbitrary
  activation, hence in particular for the real GELU.
* `nn.Dropout` is stochastic in training mode and the identity in eval mode;
  it is abstracted as a function parameter `drop : List ℚ → List ℚ`
  (instantiated with the identity for inference behaviour).
* `nn.BatchNorm1d(1, affine=False)` in inference behaviour maps the single
  feature `x` to `(x - running_mean) / sqrt(running_var + eps)`; it is
  modelled by the parameters `bn_mean = running_mean` and
  `bn_invStd = 1 / sqrt(running_var + eps)` (an arbitrary positive rational,
  since `running_var` is an arbitrary non-negative statistic after training).
  BatchNorm1d(1) raises unless its input has exactly one feature channel,
  hence the `Option` result.
* Pyro's sampled quantities (`PyroSample` attributes, `pyro.sample` calls)
  are modelled by their concrete values in `Params` plus explicit lists of
  (site name, prior distribution) pairs taken from the class definitions.
-/

/-- Dot product of two rational vectors (zip-truncating, as in all uses the
lengths agree). -/
def dot (x y : List ℚ) : ℚ := (List.zipWith (· * ·) x y).sum

/-- A `torch.nn.Linear` layer: a matrix of weight rows and a bias vector. -/
structure Linear where
  weight : List (List ℚ)
  bias : List ℚ
deriving DecidableEq

/-- Application of `nn.Linear`: output `j` is `weight[j] · x + bias[j]`. -/
def Linear.apply (l : Linear) (x : List ℚ) : List ℚ :=
  List.zipWith (fun r b => dot r x + b) l.weight l.bias

/-- Number of columns of a row-major matrix (its first row's length; all
matrices supplied to the models are rectangular). -/
def numCols (M : List (List ℚ)) : ℕ := (M.headD []).length

/-- Column `j` of a row-major matrix (0 past a row's end, matching a
rectangular matrix wherever `j` is within bounds). -/
def colD (M : List (List ℚ)) (j : ℕ) : List ℚ := M.map (fun r => r.getD j 0)

/-- Semantics of `torch.matmul(x, M[:, :k])`: the sliced matrix keeps the first
`min k (numCols M)` columns, and entry `j` of the product is
`x · (column j of M)`. -/
def vecMatTake (k : ℕ) (x : List ℚ) (M : List (List ℚ)) : List ℚ :=
  (List.range (min k (numCols M))).map (fun j => dot x (colD M j))

/-- The index-network layer loop from `forward` (both classes, lines
102-107 / 250-255): every layer except the last is followed by the
activation and dropout; the last layer is applied plainly; an empty layer
list leaves the input unchanged. -/
def layerStack (gelu : ℚ → ℚ) (drop : List ℚ → List ℚ) :
    List Linear → List ℚ → List ℚ
  | [], x => x
  | [l], x => l.apply x
  | l :: l2 :: ls, x => layerStack gelu drop (l2 :: ls) (drop ((l.apply x).map gelu))

/-- The layer loop from `get_resilience_index` (both classes, lines 156-161 /
304-309): identical to the `forward` loop except that the dropout call is
absent. -/
def resStack (gelu : ℚ → ℚ) : List Linear → List ℚ → List ℚ
  | [], x => x
  | [l], x => l.apply x
  | l :: l2 :: ls, x => resStack gelu (l2 :: ls) ((l.apply x).map gelu)

/-- Inference behaviour of `nn.BatchNorm1d(1, affine=False)`: defined only on
a single-feature input (BatchNorm1d(num_features=1) raises on any other
channel count), where it applies the running-statistics normalisation
`x ↦ (x - mean) * invStd`. -/
def bnEval (mean invStd : ℚ) : List ℚ → Option (List ℚ)
  | [x] => some [(x - mean) * invStd]
  | _ => none

/-- Construction arguments shared by `BayesMIHM.__init__` and
`RelaxedBayesMIHM.__init__` (dropout probability and device are omitted:
dropout is abstracted as a function and the device only moves tensors). -/
structure MIHMConfig where
  interaction_var_size : ℕ
  controlled_var_size : ℕ
  hidden_layer_sizes : List ℕ
  include_interactor_bias : Bool
  svd : Bool
  svd_matrix : Option (List (List ℚ))
  k_dim : ℕ
  concatenate_interaction_vars : Bool
  batch_norm : Bool
deriving DecidableEq

/-- A successfully constructed model: the configuration flags `forward`
branches on, the retained reduction data, and the architecture facts fixed
by `__init__` (effective control-input width, layer input sizes, whether an
`index_main_weight` attribute exists, the BatchNorm feature count). -/
structure Model where
  concatenate_interaction_vars : Bool
  include_interactor_bias : Bool
  batch_norm : Bool
  svd : Bool
  svd_matrix : List (List ℚ)
  k_dim : ℕ
  controlledInSize : ℕ
  layerInputSizes : List ℕ
  numLayers : ℕ
  hasIndexMainWeight : Bool
  bnNumFeatures : Option ℕ
deriving DecidableEq

/-- Concrete values of the model's learnable / sampled quantities, at which
the `forward` algebra is evaluated. -/
structure Params where
  layers : List Linear
  controlled_weight : List ℚ
  controlled_bias : ℚ
  interaction_weight : ℚ
  interactor_main_weight : ℚ
  index_main_weight : ℚ
  interactor_bias : ℚ
  bn_mean : ℚ
  bn_invStd : ℚ
deriving DecidableEq

/-- Prior-distribution descriptors for the declared Pyro sample sites. -/
inductive DistD
  | normal (mean scale : ℚ)
  | halfNormal (scale : ℚ)
  | gamma (concentration rate : ℚ)
deriving DecidableEq

namespace BayesMIHM

/-- Constructor `BayesMIHM.__init__` (lines 11-88): records the flags, widens the
control size on concatenation, and — when `svd` is requested — asserts that a
basis is supplied and `k_dim <= interaction_var_size`, replacing the
index-network input width by `k_dim`; an assertion failure aborts
construction (`none`). -/
def build (cfg : MIHMConfig) : Option Model :=
  let effControlled :=
    if cfg.concatenate_interaction_vars then
      cfg.controlled_var_size + cfg.interaction_var_size
    else cfg.controlled_var_size
  let mk := fun (M : List (List ℚ)) (effInteraction : ℕ) =>
    Model.mk cfg.concatenate_interaction_vars cfg.include_interactor_bias
      cfg.batch_norm cfg.svd M cfg.k_dim effControlled
      (effInteraction :: cfg.hidden_layer_sizes) cfg.hidden_layer_sizes.length
      (!cfg.concatenate_interaction_vars)
      (if cfg.batch_norm then some 1 else none)
  if cfg.svd then
    match cfg.svd_matrix with
    | none => none
    | some M =>
      if cfg.k_dim ≤ cfg.interaction_var_size then some (mk M cfg.k_dim)
      else none
  else some (mk [] cfg.interaction_var_size)

/-- Line 91-94: the linear-control input — controls alone, or controls
concatenated with the raw interaction predictors. -/
def allLinearVars (m : Model) (controlled_vars interaction_input_vars : List ℚ) :
    List ℚ :=
  if m.concatenate_interaction_vars then controlled_vars ++ interaction_input_vars
  else controlled_vars

/-- Line 95: `controlled_var_weights(all_linear_vars)`, a 1-output linear
layer. -/
def controlledTerm (m : Model) (p : Params)
    (interaction_input_vars controlled_vars : List ℚ) : ℚ :=
  dot p.controlled_weight (allLinearVars m controlled_vars interaction_input_vars)
    + p.controlled_bias

/-- Lines 97-100: optional reduction `matmul(x, svd_matrix[:, :k_dim])`. -/
def reduceInput (m : Model) (x : List ℚ) : List ℚ :=
  if m.svd then vecMatTake m.k_dim x m.svd_matrix else x

/-- Lines 97-107: reduction followed by the layer loop. -/
def indexStack (gelu : ℚ → ℚ) (drop : List ℚ → List ℚ) (m : Model) (p : Params)
    (x : List ℚ) : List ℚ :=
  layerStack gelu drop p.layers (reduceInput m x)

/-- Lines 108-111: `predicted_index`, the stacked output passed through the
BatchNorm when `batch_norm` is set (which raises off a single feature). -/
def predictedIndex (gelu : ℚ → ℚ) (drop : List ℚ → List ℚ) (m : Model)
    (p : Params) (x : List ℚ) : Option (List ℚ) :=
  if m.batch_norm then bnEval p.bn_mean p.bn_invStd (indexStack gelu drop m p x)
  else some (indexStack gelu drop m p x)

/-- Lines 113-120: the effective exposure (`interactor`):
`max(0, interactor_var - interactor_bias)` when the threshold bias is
included, the raw value otherwise. -/
def interactorTerm (m : Model) (p : Params) (interactor_var : ℚ) : ℚ :=
  if m.include_interactor_bias then max 0 (interactor_var - p.interactor_bias)
  else interactor_var

/-- Value semantics of `BayesMIHM.forward` (lines 90-149): the returned
`predicted_epi` row, `none` when the BatchNorm raises. -/
def forwardVal (gelu : ℚ → ℚ) (drop : List ℚ → List ℚ) (m : Model) (p : Params)
    (interaction_input_vars : List ℚ) (interactor_var : ℚ)
    (controlled_vars : List ℚ) : Option (List ℚ) :=
  let controlled_term := controlledTerm m p interaction_input_vars controlled_vars
  let interactor := interactorTerm m p interactor_var
  let interactor_main_term := p.interactor_main_weight * interactor
  (predictedIndex gelu drop m p interaction_input_vars).map
    (fun predicted_index =>
      predicted_index.map (fun t =>
        p.interaction_weight * interactor * t + controlled_term
          + interactor_main_term
          + (if m.concatenate_interaction_vars then 0 else p.index_main_weight * t)))

/-- Method `BayesMIHM.get_resilience_index` (lines 151-162): reduction followed by
the dropout-free layer loop; no BatchNorm, no sampling. -/
def get_resilience_index (gelu : ℚ → ℚ) (m : Model) (p : Params)
    (interaction_input_vars : List ℚ) : List ℚ :=
  resStack gelu p.layers (reduceInput m interaction_input_vars)

/-- Sample sites registered by `get_resilience_index`: the method touches no
`PyroSample` attribute and makes no `pyro.sample` call. -/
def resilienceIndexSites : List String := []

/-- The `PyroSample` prior declarations of `BayesMIHM.__init__`
(lines 55-86), with the conditional sites present exactly per the flags. -/
def priors (m : Model) : List (String × DistD) :=
  [("controlled_var_weights.weight", DistD.normal 0 1),
   ("controlled_var_weights.bias", DistD.normal 0 5),
   ("interaction_weight", DistD.halfNormal 1),
   ("interactor_main_weight", DistD.normal 0 1)]
    ++ (if m.concatenate_interaction_vars then [] else
          [("index_main_weight", DistD.normal 0 1)])
    ++ (if m.include_interactor_bias then [("interactor_bias", DistD.halfNormal 1)]
        else [])

/-- Line 140-143: the outcome-noise prior `dist.Gamma(0.5, 1)`. -/
def sigmaPrior : DistD := DistD.gamma (1/2) 1

end BayesMIHM

namespace RelaxedBayesMIHM

/-- Constructor `RelaxedBayesMIHM.__init__` (lines 171-236): identical flag recording,
control-size widening and `svd` assertions to `BayesMIHM.__init__`. -/
def build (cfg : MIHMConfig) : Option Model :=
  let effControlled :=
    if cfg.concatenate_interaction_vars then
      cfg.controlled_var_size + cfg.interaction_var_size
    else cfg.controlled_var_size
  let mk := fun (M : List (List ℚ)) (effInteraction : ℕ) =>
    Model.mk cfg.concatenate_interaction_vars cfg.include_interactor_bias
      cfg.batch_norm cfg.svd M cfg.k_dim effControlled
      (effInteraction :: cfg.hidden_layer_sizes) cfg.hidden_layer_sizes.length
      (!cfg.concatenate_interaction_vars)
      (if cfg.batch_norm then some 1 else none)
  if cfg.svd then
    match cfg.svd_matrix with
    | none => none
    | some M =>
      if cfg.k_dim ≤ cfg.interaction_var_size then some (mk M cfg.k_dim)
      else none
  else some (mk [] cfg.interaction_var_size)

/-- Value semantics of `RelaxedBayesMIHM.forward` (lines 238-297): textually
the same computation as `BayesMIHM.forward` (the classes differ only in
which quantities are sampled and in the `sigma` prior). -/
def forwardVal (gelu : ℚ → ℚ) (drop : List ℚ → List ℚ) (m : Model) (p : Params)
    (interaction_input_vars : List ℚ) (interactor_var : ℚ)
    (controlled_vars : List ℚ) : Option (List ℚ) :=
  let controlled_term :=
    BayesMIHM.controlledTerm m p interaction_input_vars controlled_vars
  let interactor := BayesMIHM.interactorTerm m p interactor_var
  let interactor_main_term := p.interactor_main_weight * interactor
  (BayesMIHM.predictedIndex gelu drop m p interaction_input_vars).map
    (fun predicted_index =>
      predicted_index.map (fun t =>
        p.interaction_weight * interactor * t + controlled_term
          + interactor_main_term
          + (if m.concatenate_interaction_vars then 0 else p.index_main_weight * t)))

/-- Method `RelaxedBayesMIHM.get_resilience_index` (lines 299-310): identical loop
to the `BayesMIHM` version. -/
def get_resilience_index (gelu : ℚ → ℚ) (m : Model) (p : Params)
    (interaction_input_vars : List ℚ) : List ℚ :=
  resStack gelu p.layers (BayesMIHM.reduceInput m interaction_input_vars)

/-- The `PyroSample` prior declarations of `RelaxedBayesMIHM.__init__`
(lines 217-234): the control weights are an `nn.Linear` and the index main
weight an `nn.Parameter`, so neither is a sample site. -/
def priors (m : Model) : List (String × DistD) :=
  [("interaction_weight", DistD.halfNormal 1),
   ("interactor_main_weight", DistD.normal 0 1)]
    ++ (if m.include_interactor_bias then [("interactor_bias", DistD.halfNormal 1)]
        else [])

/-- Line 288-291: the outcome-noise prior `dist.HalfNormal(1)`. -/
def sigmaPrior : DistD := DistD.halfNormal 1

end RelaxedBayesMIHM

/-! ### Hyperparameter search driver (`src/hyperparameter_search.py`) -/

/-- One hyperparameter's sampling specification in the ray-tune search
space. -/
inductive ParamSpec
  | randint (lo hi : ℕ)
  | choice (options : List ℕ)
  | loguniform (lo hi : ℚ)
deriving DecidableEq

/-- The `config` dictionary (lines 6-13): `tune.randint`, `tune.choice` and
`tune.loguniform` entries, with `1e-5 = 1/100000` and `1e-1 = 1/10`. -/
def searchSpace : List (String × ParamSpec) :=
  [("layer1", ParamSpec.randint 10 100),
   ("layer2", ParamSpec.randint 10 100),
   ("k_dims", ParamSpec.randint 5 25),
   ("batch_size", ParamSpec.choice [32, 64, 128, 256, 512]),
   ("lr", ParamSpec.loguniform (1/100000) (1/10)),
   ("weight_decay", ParamSpec.loguniform (1/100000) (1/10))]

/-- Arguments of `tune.schedulers.ASHAScheduler` (lines 15-21). -/
structure ASHAConfig where
  metric : String
  mode : String
  max_t : ℕ
  grace_period : ℕ
  reduction_factor : ℕ
deriving DecidableEq

/-- The scheduler instance of lines 15-21. -/
def ashaScheduler : ASHAConfig :=
  ASHAConfig.mk "composite_metric" "min" 300 1 2

/-- Modelled from the spec: the asynchronous successive-halving schedule of
the external ray-tune `ASHAScheduler` evaluates trials incrementally and may
stop a trial only at rung boundaries; rung `i` sits at resource budget
`grace_period * reduction_factor ^ i` (so no trial is stopped before
`grace_period` evaluation rounds, and each surviving rung multiplies the
budget by `reduction_factor`). -/
def rungBudget (s : ASHAConfig) (i : ℕ) : ℕ :=
  s.grace_period * s.reduction_factor ^ i

/-- One tune trial: its per-round reported composite metrics and an abstract
checkpointed parameter snapshot. -/
structure Trial where
  id : ℕ
  results : List ℚ
  checkpoint : ℕ
deriving DecidableEq

/-- The last metric a trial reported (scope `"last"`). -/
def lastMetric (t : Trial) : Option ℚ := t.results.getLast?

/-- Modelled from the spec: the external
`result.get_best_trial("composite_metric", "min", "last")` (line 31) returns
the trial whose last reported composite metric is minimal; a trial that
never reported a metric is excluded from selection. -/
def getBestTrial (trials : List Trial) : Option Trial :=
  (trials.filter (fun t => !t.results.isEmpty)).argmin
    (fun t => (lastMetric t).getD 0)

/-- Lines 43-46: the selected trial's checkpointed parameter snapshot is the
artifact persisted via `torch.save`. -/
def persistedSnapshot (trials : List Trial) : Option ℕ :=
  (getBestTrial trials).map Trial.checkpoint

/-! ### Dataframe mutation in `evaluate_significance`
(`src/mihm/hyperparam/eval.py`) -/

/-- A pandas dataframe, modelled as its ordered association list of named
numeric columns. -/
abbrev DataFrame := List (String × List ℚ)

/-- Column lookup (first match, as column names are unique in pandas). -/
def lookupCol : DataFrame → String → Option (List ℚ)
  | [], _ => none
  | (c', v') :: rest, c => if c' = c then some v' else lookupCol rest c

/-- Semantics of the pandas assignment `df[c] = v`: replaces an existing
column `c` in place, or appends a new column at the end. -/
def setCol : DataFrame → String → List ℚ → DataFrame
  | [], c, v => [(c, v)]
  | (c', v') :: rest, c, v =>
    if c' = c then (c, v) :: rest else (c', v') :: setCol rest c v

/-- Lines 37-41: the output `.dta` path — keyed by the caller-supplied id
when given, otherwise by the current number of files in the save
directory. -/
def savePathOf (save_dir : String) (numFilesInDir : ℕ)
    (idArg : Option String) : String :=
  match idArg with
  | some i => save_dir ++ "/index_prediction_" ++ i ++ ".dta"
  | none => save_dir ++ "/index_prediction_" ++ toString numFilesInDir ++ ".dta"

/-- State semantics of `evaluate_significance` (lines 31-45): the function
assigns the index predictions to column `"vul_index"` of the caller's
dataframe in place and writes the dataframe to the computed path. The
result pair is (the caller's dataframe state after the call, the path
written). The Stata regression and VIF extraction (lines 47-62) act only on
the external Stata session and are omitted. -/
def evaluate_significance (df_orig : DataFrame) (index_predictions : List ℚ)
    (save_dir : String) (numFilesInDir : ℕ) (idArg : Option String) :
    DataFrame × String :=
  (setCol df_orig "vul_index" index_predictions,
   savePathOf save_dir numFilesInDir idArg)

/-! ### Well-formedness of a layer list against declared widths -/

/-- Whether a `Linear` value has the shape `nn.Linear(din, dout)`: `dout`
weight rows of width `din` and `dout` bias entries. -/
def isLinearOf (l : Linear) (din dout : ℕ) : Bool :=
  l.weight.length == dout && l.bias.length == dout
    && l.weight.all (fun r => r.length == din)

/-- Whether a layer list realises `__init__`'s
`nn.Linear(layer_input_sizes[i], layer_input_sizes[i+1])` chain for input
width `din` and hidden widths `outs`. -/
def conforms : List Linear → ℕ → List ℕ → Bool
  | [], _, outs => outs.isEmpty
  | _ :: _, _, [] => false
  | l :: ls, din, d :: rest => isLinearOf l din d && conforms ls d rest

/-! ### Concrete instances used by witnesses and counterexamples -/

/-- A 1 → 1 identity linear layer. -/
def exLinear1 : Linear := Linear.mk [[1]] [0]

/-- A one-hidden-layer model with normalization enabled (as built by
`build` from interaction size 1, control size 1, hidden `[1]`). -/
def exModelBN : Model :=
  Model.mk false true true false [] 10 1 [1, 1] 1 true (some 1)

/-- The same architecture with normalization disabled. -/
def exModelNoBN : Model :=
  Model.mk false true false false [] 10 1 [1, 1] 1 true none

/-- Parameter values whose BatchNorm running statistics are
`running_mean = 1` and `running_var = 1 - eps` (so the inference-mode
normalisation is `x ↦ (x - 1) * 1`). -/
def exParams1 : Params := Params.mk [exLinear1] [0] 0 0 0 0 0 1 1

/-- The concrete-scenario configuration of the spec: interaction size 5,
control size 3, hidden layers `[16, 8]`, threshold bias on, no reduction,
non-concatenated (normalization off, so that the 8-wide index is
well-defined in `forward`). -/
def scenarioCfg : MIHMConfig :=
  MIHMConfig.mk 5 3 [16, 8] true false none 10 false false

/-- The model `build` produces from `scenarioCfg`. -/
def scenarioModel : Model :=
  Model.mk false true false false [] 10 3 [5, 16, 8] 2 true none

/-- Zero-weight layers of shapes 5 → 16 and 16 → 8 for the concrete
scenario. -/
def scenarioLayers : List Linear :=
  [Linear.mk (List.replicate 16 (List.replicate 5 0)) (List.replicate 16 0),
   Linear.mk (List.replicate 8 (List.replicate 16 0)) (List.replicate 8 0)]

/-- Scenario parameter values: threshold bias 2, a nonzero control bias 1,
all remaining weights 0. -/
def scenarioParams : Params := Params.mk scenarioLayers [0, 0, 0] 1 0 0 0 2 0 1

/-- A reduction-enabled configuration: interaction size 2, retained
dimension 1, basis `[[1, 5], [0, 7]]`. -/
def exCfgSVD : MIHMConfig :=
  MIHMConfig.mk 2 1 [1] true true (some [[1, 5], [0, 7]]) 1 false false

/-- The model `build` produces from `exCfgSVD`. -/
def exModelSVD : Model :=
  Model.mk false true false true [[1, 5], [0, 7]] 1 1 [1, 1] 1 true none

/-- A second basis agreeing with `exCfgSVD`'s on the first column only. -/
def exBasis2 : List (List ℚ) := [[1, 9], [0, 4]]

/-- Layers of shape 1 → 2 and 2 → 1, used by the last-width witness. -/
def exLayers121 : List Linear :=
  [Linear.mk [[1], [1]] [0, 0], Linear.mk [[1, 1]] [0]]

/-- A model with hidden widths `[2, 1]` and normalization on (as built from
interaction size 1, control size 1, hidden `[2, 1]`). -/
def exModel121 : Model :=
  Model.mk false true true false [] 10 1 [1, 2, 1] 2 true (some 1)

/-- Parameter values for `exModel121` with fresh-looking running
statistics. -/
def exParams121 : Params := Params.mk exLayers121 [0] 0 1 1 1 0 0 1

/-- Three concrete trials: two that reported metrics and one that never
did. -/
def exTrials : List Trial :=
  [Trial.mk 0 [3, 2] 5, Trial.mk 1 [1, 4] 6, Trial.mk 2 [] 7]

/-- The configuration that `build` maps to `exModelNoBN`. -/
def exCfgNoBN : MIHMConfig :=
  MIHMConfig.mk 1 1 [1] true false none 10 false false

/-- The same model with another reduction basis substituted (all remaining
construction data unchanged). -/
def withBasis (m : Model) (M2 : List (List ℚ)) : Model :=
  Model.mk m.concatenate_interaction_vars m.include_interactor_bias
    m.batch_norm m.svd M2 m.k_dim m.controlledInSize m.layerInputSizes
    m.numLayers m.hasIndexMainWeight m.bnNumFeatures

/-! ### Helper lemmas -/

/-- The dropout-free loop of `get_resilience_index` is the `forward` loop
with the identity in place of dropout. -/
theorem resStack_eq_layerStack (gelu : ℚ → ℚ) :
    ∀ (ls : List Linear) (x : List ℚ),
      resStack gelu ls x = layerStack gelu (fun v => v) ls x
  | [], _ => rfl
  | [_], _ => rfl
  | _ :: l2 :: ls, x => by
    rw [resStack, layerStack]
    exact resStack_eq_layerStack gelu (l2 :: ls) _

/-- A dot product against an all-zero vector vanishes. -/
theorem dot_replicate_zero : ∀ (l : List ℚ) (n : ℕ),
    dot l (List.replicate n 0) = 0
  | [], _ => rfl
  | _ :: _, 0 => rfl
  | a :: l, n + 1 => by
    simpa [dot, List.replicate_succ, List.zipWith_cons_cons] using
      dot_replicate_zero l n

/-- Entries of a take within the taken range agree with the original. -/
theorem getD_take_eq (l : List ℚ) {j k : ℕ} (h : j < k) :
    (l.take k).getD j 0 = l.getD j 0 := by
  simp [List.getD_eq_getElem?_getD, List.getElem?_take, h]

/-- Retained columns of two matrices that agree rowwise up to `k`. -/
theorem colD_congr (k j : ℕ) (hj : j < k) :
    ∀ {M M2 : List (List ℚ)},
      M.map (fun r => r.take k) = M2.map (fun r => r.take k) →
      colD M j = colD M2 j := by
  intro M
  induction M with
  | nil =>
    intro M2 h
    cases M2 with
    | nil => rfl
    | cons r2 t2 => simp at h
  | cons r t ih =>
    intro M2 h
    cases M2 with
    | nil => simp at h
    | cons r2 t2 =>
      simp only [List.map_cons, List.cons.injEq] at h
      have hr : r.getD j 0 = r2.getD j 0 := by
        rw [← getD_take_eq r hj, ← getD_take_eq r2 hj, h.1]
      have ht : colD t j = colD t2 j := ih h.2
      unfold colD at ht ⊢
      rw [List.map_cons, List.map_cons, hr, ht]

/-- Two matrices that agree columnwise up to `k` have equal `vecMatTake`
products: the sliced column counts agree and each retained column agrees. -/
theorem vecMatTake_congr (k : ℕ) (x : List ℚ) :
    ∀ {M M2 : List (List ℚ)},
      M.map (fun r => r.take k) = M2.map (fun r => r.take k) →
      vecMatTake k x M = vecMatTake k x M2 := by
  intro M M2 h
  have hcols : min k (numCols M) = min k (numCols M2) := by
    cases M with
    | nil =>
      cases M2 with
      | nil => rfl
      | cons r2 t2 => simp at h
    | cons r t =>
      cases M2 with
      | nil => simp at h
      | cons r2 t2 =>
        simp only [List.map_cons, List.cons.injEq] at h
        have : (r.take k).length = (r2.take k).length := by rw [h.1]
        simpa [numCols, Nat.min_comm k] using this
  unfold vecMatTake
  rw [← hcols]
  refine List.map_congr_left ?_
  intro j hj
  rw [colD_congr k j (lt_of_lt_of_le (List.mem_range.mp hj) (Nat.min_le_left _ _)) h]

/-- Field values of a successfully built `BayesMIHM` model. -/
theorem build_fields {cfg : MIHMConfig} {m : Model}
    (h : BayesMIHM.build cfg = some m) :
    m.concatenate_interaction_vars = cfg.concatenate_interaction_vars
    ∧ m.include_interactor_bias = cfg.include_interactor_bias
    ∧ m.batch_norm = cfg.batch_norm
    ∧ m.svd = cfg.svd
    ∧ m.k_dim = cfg.k_dim
    ∧ m.controlledInSize
        = (if cfg.concatenate_interaction_vars then
            cfg.controlled_var_size + cfg.interaction_var_size
          else cfg.controlled_var_size)
    ∧ m.layerInputSizes
        = (if cfg.svd then cfg.k_dim else cfg.interaction_var_size)
            :: cfg.hidden_layer_sizes
    ∧ m.numLayers = cfg.hidden_layer_sizes.length
    ∧ m.hasIndexMainWeight = !cfg.concatenate_interaction_vars
    ∧ m.bnNumFeatures = (if cfg.batch_norm then some 1 else none)
    ∧ (cfg.svd = true → cfg.svd_matrix = some m.svd_matrix) := by
  unfold BayesMIHM.build at h
  by_cases hs : cfg.svd = true
  · rcases hsm : cfg.svd_matrix with _ | M
    · simp [hs, hsm] at h
    · simp only [hs, hsm, if_true] at h
      by_cases hk : cfg.k_dim ≤ cfg.interaction_var_size
      · simp only [if_pos hk, Option.some.injEq] at h
        subst h
        simp [hs, hsm]
      · simp [if_neg hk] at h
  · simp only [Bool.not_eq_true] at hs
    simp only [hs, Bool.false_eq_true, if_false, Option.some.injEq] at h
    subst h
    simp [hs]

/-- A layer of shape `din → dout` produces `dout` outputs. -/
theorem apply_length {l : Linear} {din dout : ℕ}
    (h : isLinearOf l din dout = true) (x : List ℚ) :
    (l.apply x).length = dout := by
  unfold isLinearOf at h
  simp only [Bool.and_eq_true, beq_iff_eq] at h
  simp [Linear.apply, h.1.1, h.1.2]

/-- Output width of the `forward` layer loop: the last hidden width (the
input width when the layer list is empty), for any shape-preserving dropout
function. -/
theorem layerStack_length (gelu : ℚ → ℚ) (drop : List ℚ → List ℚ)
    (hdrop : ∀ v : List ℚ, (drop v).length = v.length) :
    ∀ (ls : List Linear) (din : ℕ) (hidden : List ℕ) (x : List ℚ),
      conforms ls din hidden = true → x.length = din →
      (layerStack gelu drop ls x).length = hidden.getLastD din
  | [], din, hidden, x, hc, hx => by
    unfold conforms at hc
    rw [List.isEmpty_iff] at hc
    subst hc
    simpa [layerStack] using hx
  | [l], din, hidden, x, hc, hx => by
    cases hidden with
    | nil => simp [conforms] at hc
    | cons d rest =>
      unfold conforms at hc
      simp only [Bool.and_eq_true] at hc
      unfold conforms at hc
      rw [List.isEmpty_iff] at hc
      rcases hc with ⟨hl, hrest⟩
      subst hrest
      simpa [layerStack] using apply_length hl x
  | l :: l2 :: ls, din, hidden, x, hc, hx => by
    cases hidden with
    | nil => simp [conforms] at hc
    | cons d rest =>
      unfold conforms at hc
      simp only [Bool.and_eq_true] at hc
      rcases hc with ⟨hl, hrest⟩
      have hxlen : (drop ((l.apply x).map gelu)).length = d := by
        rw [hdrop, List.length_map]
        exact apply_length hl x
      have ih := layerStack_length gelu drop hdrop (l2 :: ls) d rest
        (drop ((l.apply x).map gelu)) hrest hxlen
      rw [layerStack, ih]
      cases rest with
      | nil => simp [conforms] at hrest
      | cons a b => exact (List.getLastD_cons din d (a :: b)).symm

/-- The BatchNorm application is defined exactly on single-feature
inputs. -/
theorem bnEval_isSome (mean invStd : ℚ) (v : List ℚ) :
    (bnEval mean invStd v).isSome = true ↔ v.length = 1 := by
  cases v with
  | nil => simp [bnEval]
  | cons a t =>
    cases t with
    | nil => simp [bnEval]
    | cons b t2 => simp [bnEval]

/-- The two constructors perform identical checks and record identical
architecture data. -/
theorem builds_eq : RelaxedBayesMIHM.build = BayesMIHM.build :=
  funext (fun _ => rfl)

/-! ### Claims -/

/-- C1 (amended): for both model variants, `get_resilience_index` computes
the optional reduction followed by the layer stack with dropout disabled —
the same transform as `forward`'s index computation with the identity in
place of dropout but WITHOUT the output normalization step; it therefore
coincides with `forward`'s inference-behaviour index exactly when
normalization is disabled. It is a pure function of the inputs (hence
deterministic across repeated calls) and registers no probabilistic sample
sites. -/
theorem C1_resilience_index (gelu : ℚ → ℚ) (m : Model) (p : Params)
    (x : List ℚ) :
    BayesMIHM.get_resilience_index gelu m p x
        = BayesMIHM.indexStack gelu (fun v => v) m p x
    ∧ RelaxedBayesMIHM.get_resilience_index gelu m p x
        = BayesMIHM.get_resilience_index gelu m p x
    ∧ (m.batch_norm = false →
        BayesMIHM.predictedIndex gelu (fun v => v) m p x
          = some (BayesMIHM.get_resilience_index gelu m p x))
    ∧ BayesMIHM.resilienceIndexSites = [] := by
  have h1 : BayesMIHM.get_resilience_index gelu m p x
      = BayesMIHM.indexStack gelu (fun v => v) m p x := by
    unfold BayesMIHM.get_resilience_index BayesMIHM.indexStack
    exact resStack_eq_layerStack gelu p.layers _
  refine ⟨h1, rfl, ?_, rfl⟩
  intro hbn
  unfold BayesMIHM.predictedIndex
  rw [hbn]
  simp [h1]

/-- Witness for C1 at a concrete normalization-free model and input. -/
theorem C1_witness :
    BayesMIHM.predictedIndex (fun q => q) (fun v => v) exModelNoBN exParams1 [1]
      = some (BayesMIHM.get_resilience_index (fun q => q) exModelNoBN
          exParams1 [1]) :=
  (C1_resilience_index (fun q => q) exModelNoBN exParams1 [1]).2.2.1 rfl

/-- C1 counterexample: with normalization enabled (running statistics
`mean = 1`, `invStd = 1`, a legitimate inference-mode BatchNorm state) the
index computed inside `forward` differs from `get_resilience_index`, because
`get_resilience_index` omits the normalization step. The model has a single
1 → 1 identity layer, so the (unused) activation argument is irrelevant. -/
theorem C1_counterexample :
    BayesMIHM.predictedIndex (fun q => q) (fun v => v) exModelBN exParams1 [1]
      ≠ some (BayesMIHM.get_resilience_index (fun q => q) exModelBN
          exParams1 [1]) := by
  simp [BayesMIHM.predictedIndex, BayesMIHM.indexStack, BayesMIHM.reduceInput,
    BayesMIHM.get_resilience_index, exModelBN, exParams1, exLinear1, resStack,
    layerStack, Linear.apply, dot, bnEval]

/-- C3: given identical parameter and sampled values, the two variants'
`forward` computations return the same predicted outcome (and their
constructors agree); they differ only in which quantities are sample sites —
the fully Bayesian variant additionally samples the control weight vector,
the control bias and (exactly when not concatenating) the index main-effect
weight — and in the outcome-noise prior: Gamma(0.5, 1) versus
HalfNormal(1). -/
theorem C3_relaxed_matches_bayes (gelu : ℚ → ℚ) (drop : List ℚ → List ℚ)
    (m : Model) (p : Params) (ii : List ℚ) (iv : ℚ) (cv : List ℚ) :
    RelaxedBayesMIHM.forwardVal gelu drop m p ii iv cv
        = BayesMIHM.forwardVal gelu drop m p ii iv cv
    ∧ RelaxedBayesMIHM.build = BayesMIHM.build
    ∧ ((BayesMIHM.priors m).map Prod.fst).Perm
        (["controlled_var_weights.weight", "controlled_var_weights.bias"]
          ++ (RelaxedBayesMIHM.priors m).map Prod.fst
          ++ (if m.concatenate_interaction_vars then [] else
                ["index_main_weight"]))
    ∧ "controlled_var_weights.weight" ∉ (RelaxedBayesMIHM.priors m).map Prod.fst
    ∧ "controlled_var_weights.bias" ∉ (RelaxedBayesMIHM.priors m).map Prod.fst
    ∧ "index_main_weight" ∉ (RelaxedBayesMIHM.priors m).map Prod.fst
    ∧ BayesMIHM.sigmaPrior = DistD.gamma (1/2) 1
    ∧ RelaxedBayesMIHM.sigmaPrior = DistD.halfNormal 1 := by
  refine ⟨rfl, builds_eq, ?_, ?_, ?_, ?_, rfl, rfl⟩ <;>
    cases hc : m.concatenate_interaction_vars <;>
    cases hb : m.include_interactor_bias <;>
    simp [BayesMIHM.priors, RelaxedBayesMIHM.priors, hc, hb] <;>
    decide

/-- C4: the effective exposure term equals `max(0, exposure - threshold)`
(hence is non-negative) when the threshold bias is enabled, and the raw
exposure value otherwise; both variants' `forward` use this very term. -/
theorem C4_effective_exposure (m : Model) (p : Params) (v : ℚ) :
    (m.include_interactor_bias = true →
      BayesMIHM.interactorTerm m p v = max 0 (v - p.interactor_bias)
        ∧ 0 ≤ BayesMIHM.interactorTerm m p v)
    ∧ (m.include_interactor_bias = false →
      BayesMIHM.interactorTerm m p v = v) := by
  unfold BayesMIHM.interactorTerm
  constructor
  · intro h
    rw [if_pos h]
    exact ⟨rfl, le_max_left 0 _⟩
  · intro h
    rw [if_neg (by simp [h])]

/-- Witness for C4 at a threshold-enabled model and at a threshold-free
model. -/
theorem C4_witness :
    (BayesMIHM.interactorTerm exModelBN exParams1 5
        = max 0 (5 - exParams1.interactor_bias)
      ∧ 0 ≤ BayesMIHM.interactorTerm exModelBN exParams1 5) :=
  (C4_effective_exposure exModelBN exParams1 5).1 rfl

/-- C7: for both variants, construction aborts exactly when reduction is
requested with no basis supplied or with the retained dimension exceeding
the interaction-predictor dimension; in every other case these checks
pass and a model is produced. -/
theorem C7_construction_guard (cfg : MIHMConfig) :
    (BayesMIHM.build cfg = none ↔
      cfg.svd = true
        ∧ (cfg.svd_matrix = none ∨ cfg.interaction_var_size < cfg.k_dim))
    ∧ (RelaxedBayesMIHM.build cfg = none ↔
      cfg.svd = true
        ∧ (cfg.svd_matrix = none ∨ cfg.interaction_var_size < cfg.k_dim)) := by
  have hmain : BayesMIHM.build cfg = none ↔
      cfg.svd = true
        ∧ (cfg.svd_matrix = none ∨ cfg.interaction_var_size < cfg.k_dim) := by
    unfold BayesMIHM.build
    by_cases hs : cfg.svd = true
    · rcases hsm : cfg.svd_matrix with _ | M
      · simp [hs, hsm]
      · simp only [hs, hsm, if_true]
        by_cases hk : cfg.k_dim ≤ cfg.interaction_var_size
        · simp only [if_pos hk]
          simp
          omega
        · simp only [if_neg hk]
          simp
          omega
    · simp only [Bool.not_eq_true] at hs
      simp [hs]
  exact ⟨hmain, by rw [builds_eq]; exact hmain⟩

/-- C2: whenever the index computation succeeds, `BayesMIHM.forward`'s
predicted outcome is interaction term + controlled term + exposure
main-effect term, plus index-main-effect weight × latent index exactly when
predictors are not concatenated into the controls; under concatenation the
linear-control input has runtime length (and declared in-feature width)
`controlled_var_size + interaction_var_size` and the model has no separate
index main-effect weight (no attribute, no sample site). -/
theorem C2_forward_composition (gelu : ℚ → ℚ) (drop : List ℚ → List ℚ)
    (cfg : MIHMConfig) (m : Model) (p : Params) (ii : List ℚ) (iv : ℚ)
    (cv : List ℚ) (idx : List ℚ)
    (hb : BayesMIHM.build cfg = some m)
    (h : BayesMIHM.predictedIndex gelu drop m p ii = some idx) :
    BayesMIHM.forwardVal gelu drop m p ii iv cv
        = some (idx.map (fun t =>
            p.interaction_weight * BayesMIHM.interactorTerm m p iv * t
              + BayesMIHM.controlledTerm m p ii cv
              + p.interactor_main_weight * BayesMIHM.interactorTerm m p iv
              + (if m.concatenate_interaction_vars then 0
                 else p.index_main_weight * t)))
    ∧ (m.concatenate_interaction_vars = true →
        (BayesMIHM.allLinearVars m cv ii).length = cv.length + ii.length
        ∧ m.controlledInSize
            = cfg.controlled_var_size + cfg.interaction_var_size
        ∧ m.hasIndexMainWeight = false
        ∧ "index_main_weight" ∉ (BayesMIHM.priors m).map Prod.fst) := by
  constructor
  · unfold BayesMIHM.forwardVal
    rw [h]
    rfl
  · intro hc
    obtain ⟨h1, _, _, _, _, h6, _, _, h9, _, _⟩ := build_fields hb
    have hcc : cfg.concatenate_interaction_vars = true := h1 ▸ hc
    refine ⟨?_, ?_, ?_, ?_⟩
    · simp [BayesMIHM.allLinearVars, hc]
    · rw [h6, if_pos hcc]
    · rw [h9, hcc]
      rfl
    · simp [BayesMIHM.priors, hc]

/-- Witness for C2 at a concrete one-layer model, where the latent index of
the input `[1]` is `[1]`. -/
theorem C2_witness :
    BayesMIHM.forwardVal (fun q => q) (fun v => v) exModelNoBN exParams1
        [1] 5 [2]
      = some (([(1 : ℚ)]).map (fun t =>
          exParams1.interaction_weight
              * BayesMIHM.interactorTerm exModelNoBN exParams1 5 * t
            + BayesMIHM.controlledTerm exModelNoBN exParams1 [1] [2]
            + exParams1.interactor_main_weight
              * BayesMIHM.interactorTerm exModelNoBN exParams1 5
            + (if exModelNoBN.concatenate_interaction_vars then 0
               else exParams1.index_main_weight * t))) := by
  have h : BayesMIHM.predictedIndex (fun q => q) (fun v => v) exModelNoBN
      exParams1 [1] = some [1] := by
    simp [BayesMIHM.predictedIndex, BayesMIHM.indexStack, BayesMIHM.reduceInput,
      exModelNoBN, exParams1, exLinear1, layerStack, Linear.apply, dot]
  exact (C2_forward_composition (fun q => q) (fun v => v) exCfgNoBN exModelNoBN
    exParams1 [1] 5 [2] [1] rfl h).1

/-- C5 (amended): in the concrete scenario (interaction size 5, controls 3,
hidden `[16, 8]`, threshold bias valued 2, exposure 10, all-zero predictors
and controls) the effective exposure is 8 and the predicted outcome is
`interaction_weight × 8 × index + exposure_main_weight × 8
+ index_main_weight × index + controlled_bias` per index component: the
index main term IS included (non-concatenated model), but the controlled
term equals the control BIAS — only its weighted part vanishes on zero
controls — so the spec's formula omits both the index main term and the
bias. -/
theorem C5_zero_input_scenario (gelu : ℚ → ℚ) (drop : List ℚ → List ℚ)
    (p : Params) (hbias : p.interactor_bias = 2) :
    BayesMIHM.build scenarioCfg = some scenarioModel
    ∧ BayesMIHM.interactorTerm scenarioModel p 10 = 8
    ∧ BayesMIHM.controlledTerm scenarioModel p (List.replicate 5 0)
        (List.replicate 3 0) = p.controlled_bias
    ∧ BayesMIHM.forwardVal gelu drop scenarioModel p (List.replicate 5 0) 10
        (List.replicate 3 0)
        = some ((BayesMIHM.indexStack gelu drop scenarioModel p
            (List.replicate 5 0)).map (fun t =>
              p.interaction_weight * 8 * t + p.interactor_main_weight * 8
                + p.index_main_weight * t + p.controlled_bias)) := by
  have hinc : scenarioModel.include_interactor_bias = true := rfl
  have hconcat : ¬(scenarioModel.concatenate_interaction_vars = true) := by
    simp [scenarioModel]
  have hbn : ¬(scenarioModel.batch_norm = true) := by
    simp [scenarioModel]
  have hinter : BayesMIHM.interactorTerm scenarioModel p 10 = 8 := by
    unfold BayesMIHM.interactorTerm
    rw [if_pos hinc, hbias, show (10 : ℚ) - 2 = 8 by norm_num]
    exact max_eq_right (by norm_num)
  have hctrl : BayesMIHM.controlledTerm scenarioModel p (List.replicate 5 0)
      (List.replicate 3 0) = p.controlled_bias := by
    unfold BayesMIHM.controlledTerm BayesMIHM.allLinearVars
    rw [if_neg hconcat, dot_replicate_zero, zero_add]
  refine ⟨rfl, hinter, hctrl, ?_⟩
  unfold BayesMIHM.forwardVal BayesMIHM.predictedIndex
  rw [if_neg hbn, Option.map_some']
  refine congrArg some (List.map_congr_left ?_)
  intro t _
  rw [hinter, hctrl, if_neg hconcat]
  ring

/-- Witness for C5 at concrete zero-weight layers and a control bias of
1. -/
theorem C5_witness :
    BayesMIHM.forwardVal (fun q => q) (fun v => v) scenarioModel
        scenarioParams (List.replicate 5 0) 10 (List.replicate 3 0)
      = some ((BayesMIHM.indexStack (fun q => q) (fun v => v) scenarioModel
          scenarioParams (List.replicate 5 0)).map (fun t =>
            scenarioParams.interaction_weight * 8 * t
              + scenarioParams.interactor_main_weight * 8
              + scenarioParams.index_main_weight * t
              + scenarioParams.controlled_bias)) :=
  (C5_zero_input_scenario (fun q => q) (fun v => v) scenarioParams rfl).2.2.2

/-- C5 counterexample: with a nonzero control bias (bias 1, every weight 0)
the predicted outcome differs from the spec's
`interaction_weight × 8 × index + exposure_main_weight × 8`: every
component is 1, not 0, because the controlled term contributes its bias even
on all-zero controls. The model's two layers are zero everywhere and have
zero biases, so the activation argument only ever acts on 0 — where the
instantiated activation agrees with the real GELU (`gelu(0) = 0`). -/
theorem C5_counterexample :
    BayesMIHM.forwardVal (fun q => q) (fun v => v) scenarioModel
        scenarioParams (List.replicate 5 0) 10 (List.replicate 3 0)
      ≠ some ((BayesMIHM.indexStack (fun q => q) (fun v => v) scenarioModel
          scenarioParams (List.replicate 5 0)).map (fun t =>
            scenarioParams.interaction_weight * 8 * t
              + scenarioParams.interactor_main_weight * 8)) := by
  simp [BayesMIHM.forwardVal, BayesMIHM.predictedIndex, BayesMIHM.indexStack,
    BayesMIHM.reduceInput, BayesMIHM.controlledTerm, BayesMIHM.allLinearVars,
    BayesMIHM.interactorTerm, scenarioModel, scenarioParams, scenarioLayers,
    layerStack, Linear.apply, dot, List.replicate, List.zipWith]

/-- Mapping preserves definedness of an optional value. -/
theorem optionMap_isSome {α β : Type} (f : α → β) (o : Option α) :
    (o.map f).isSome = o.isSome := by
  cases o <;> rfl

/-- C6: with reduction enabled (on a basis with at least `k_dim` columns)
the reduced input consumed by the first index-network layer has length
exactly `k_dim`, the declared first-layer input width is `k_dim`, and
replacing the basis by any other basis agreeing on the first `k_dim`
columns leaves both `forward` and `get_resilience_index` outputs exactly
unchanged. -/
theorem C6_reduction_dimension (cfg : MIHMConfig) (m : Model) (gelu : ℚ → ℚ)
    (drop : List ℚ → List ℚ) (p : Params) (x : List ℚ) (iv : ℚ) (cv : List ℚ)
    (M2 : List (List ℚ))
    (hb : BayesMIHM.build cfg = some m) (hsvd : cfg.svd = true)
    (hcols : m.k_dim ≤ numCols m.svd_matrix)
    (hagree : m.svd_matrix.map (fun r => r.take m.k_dim)
        = M2.map (fun r => r.take m.k_dim)) :
    (BayesMIHM.reduceInput m x).length = m.k_dim
    ∧ m.layerInputSizes.head? = some cfg.k_dim
    ∧ BayesMIHM.forwardVal gelu drop (withBasis m M2) p x iv cv
        = BayesMIHM.forwardVal gelu drop m p x iv cv
    ∧ BayesMIHM.get_resilience_index gelu (withBasis m M2) p x
        = BayesMIHM.get_resilience_index gelu m p x := by
  obtain ⟨_, _, _, h4, _, _, h7, _, _, _, _⟩ := build_fields hb
  have hsvdm : m.svd = true := by rw [h4, hsvd]
  have hred : BayesMIHM.reduceInput (withBasis m M2) x
      = BayesMIHM.reduceInput m x := by
    unfold BayesMIHM.reduceInput
    rw [if_pos (show (withBasis m M2).svd = true from hsvdm), if_pos hsvdm]
    exact (vecMatTake_congr m.k_dim x hagree).symm
  refine ⟨?_, ?_, ?_, ?_⟩
  · unfold BayesMIHM.reduceInput
    rw [if_pos hsvdm]
    unfold vecMatTake
    rw [List.length_map, List.length_range]
    exact Nat.min_eq_left hcols
  · simp [h7, hsvd]
  · simp only [BayesMIHM.forwardVal, BayesMIHM.predictedIndex,
      BayesMIHM.indexStack, hred]
    rfl
  · unfold BayesMIHM.get_resilience_index
    rw [hred]

/-- Witness for C6: a 2-column basis with retained dimension 1 and a second
basis that differs only in the unused second column. -/
theorem C6_witness :
    (BayesMIHM.reduceInput exModelSVD [1, 2]).length = exModelSVD.k_dim
    ∧ exModelSVD.layerInputSizes.head? = some exCfgSVD.k_dim
    ∧ BayesMIHM.forwardVal (fun q => q) (fun v => v)
        (withBasis exModelSVD exBasis2) exParams1 [1, 2] 0 [3]
        = BayesMIHM.forwardVal (fun q => q) (fun v => v) exModelSVD exParams1
            [1, 2] 0 [3]
    ∧ BayesMIHM.get_resilience_index (fun q => q)
        (withBasis exModelSVD exBasis2) exParams1 [1, 2]
        = BayesMIHM.get_resilience_index (fun q => q) exModelSVD exParams1
            [1, 2] :=
  C6_reduction_dimension exCfgSVD exModelSVD (fun q => q) (fun v => v)
    exParams1 [1, 2] 0 [3] exBasis2 rfl rfl (by decide) rfl

/-- C9: construction never inspects the final hidden width (it succeeds for
an arbitrary hidden-width list, normalization on or off); the index-network
output width equals the last hidden width, the normalization layer is built
for exactly one feature, and — with normalization enabled — the index
computation and the whole `forward` call succeed exactly when the last
hidden width is 1. -/
theorem C9_last_width (i c k : ℕ) (hidden : List ℕ) (b1 b2 b3 : Bool)
    (gelu : ℚ → ℚ) (drop : List ℚ → List ℚ) (m : Model) (p : Params)
    (x : List ℚ) (iv : ℚ) (cv : List ℚ)
    (hdrop : ∀ v : List ℚ, (drop v).length = v.length)
    (hb : BayesMIHM.build (MIHMConfig.mk i c hidden b1 false none k b2 true)
        = some m)
    (hconf : conforms p.layers i hidden = true) (hx : x.length = i) :
    (BayesMIHM.build (MIHMConfig.mk i c hidden b1 false none k b2 b3)).isSome
        = true
    ∧ m.bnNumFeatures = some 1
    ∧ (BayesMIHM.indexStack gelu drop m p x).length = hidden.getLastD i
    ∧ ((BayesMIHM.predictedIndex gelu drop m p x).isSome = true
        ↔ hidden.getLastD i = 1)
    ∧ ((BayesMIHM.forwardVal gelu drop m p x iv cv).isSome = true
        ↔ hidden.getLastD i = 1) := by
  obtain ⟨_, _, h3, h4, _, _, _, _, _, h10, _⟩ := build_fields hb
  have hbn : m.batch_norm = true := by rw [h3]
  have hsvdf : m.svd = false := by rw [h4]
  have hstack : (BayesMIHM.indexStack gelu drop m p x).length
      = hidden.getLastD i := by
    unfold BayesMIHM.indexStack BayesMIHM.reduceInput
    rw [hsvdf]
    simp only [Bool.false_eq_true, if_false]
    exact layerStack_length gelu drop hdrop p.layers i hidden x hconf hx
  have hpred : (BayesMIHM.predictedIndex gelu drop m p x).isSome = true
      ↔ hidden.getLastD i = 1 := by
    unfold BayesMIHM.predictedIndex
    rw [if_pos hbn, bnEval_isSome, hstack]
  refine ⟨?_, ?_, hstack, hpred, ?_⟩
  · unfold BayesMIHM.build
    simp
  · rw [h10]
    rfl
  · simp only [BayesMIHM.forwardVal, optionMap_isSome]
    exact hpred

/-- Witness for C9 at a model with hidden widths `[2, 1]` and conforming
concrete layers. -/
theorem C9_witness :
    (BayesMIHM.build (MIHMConfig.mk 1 1 [2, 1] true false none 10 false
        false)).isSome = true
    ∧ exModel121.bnNumFeatures = some 1
    ∧ (BayesMIHM.indexStack (fun q => q) (fun v => v) exModel121 exParams121
        [1]).length = [2, 1].getLastD 1
    ∧ ((BayesMIHM.predictedIndex (fun q => q) (fun v => v) exModel121
        exParams121 [1]).isSome = true ↔ [2, 1].getLastD 1 = 1)
    ∧ ((BayesMIHM.forwardVal (fun q => q) (fun v => v) exModel121 exParams121
        [1] 0 [0]).isSome = true ↔ [2, 1].getLastD 1 = 1) :=
  C9_last_width 1 1 10 [2, 1] true false false (fun q => q) (fun v => v)
    exModel121 exParams121 [1] 0 [0] (fun _ => rfl) rfl (by decide) rfl

/-- Setting a column makes it present with the new value. -/
theorem lookupCol_setCol_self : ∀ (df : DataFrame) (c : String) (v : List ℚ),
    lookupCol (setCol df c v) c = some v
  | [], c, v => by simp [setCol, lookupCol]
  | (c', v') :: rest, c, v => by
    by_cases h : c' = c
    · simp [setCol, lookupCol, h]
    · simp only [setCol, if_neg h, lookupCol]
      exact lookupCol_setCol_self rest c v

/-- Setting a column leaves every other column unchanged. -/
theorem lookupCol_setCol_ne : ∀ (df : DataFrame) (c : String) (v : List ℚ)
    (c2 : String), c2 ≠ c → lookupCol (setCol df c v) c2 = lookupCol df c2
  | [], c, v, c2, h => by
    simp only [setCol, lookupCol]
    rw [if_neg (fun hh => h hh.symm)]
  | (c', v') :: rest, c, v, c2, h => by
    by_cases hc : c' = c
    · subst hc
      simp only [setCol, if_pos rfl, lookupCol]
      rw [if_neg (fun hh => h hh.symm), if_neg (fun hh => h hh.symm)]
    · simp only [setCol, if_neg hc, lookupCol]
      by_cases hc2 : c' = c2
      · rw [if_pos hc2, if_pos hc2]
      · rw [if_neg hc2, if_neg hc2]
        exact lookupCol_setCol_ne rest c v c2 h

/-- C8: the search space consists of two hidden-layer widths and a reduced
dimension (integer ranges), a categorical batch size, and log-uniform
learning rate and weight decay; the ASHA schedule minimises the composite
metric, cannot stop a trial before one evaluation round
(`rungBudget 0 = 1`), and doubles the resource budget at each further rung;
the selected trial is one that reported metrics and whose last-reported
composite metric is minimal among all reporting trials, and exactly that
trial's parameter snapshot is persisted. -/
theorem C8_search_driver :
    (∀ (trials : List Trial) (t : Trial), getBestTrial trials = some t →
        t ∈ trials ∧ t.results ≠ []
          ∧ ∀ t2 ∈ trials, t2.results ≠ [] →
              (lastMetric t).getD 0 ≤ (lastMetric t2).getD 0)
    ∧ (∀ trials, persistedSnapshot trials
        = (getBestTrial trials).map Trial.checkpoint)
    ∧ searchSpace.map Prod.fst
        = ["layer1", "layer2", "k_dims", "batch_size", "lr", "weight_decay"]
    ∧ searchSpace.lookup "layer1" = some (ParamSpec.randint 10 100)
    ∧ searchSpace.lookup "layer2" = some (ParamSpec.randint 10 100)
    ∧ searchSpace.lookup "k_dims" = some (ParamSpec.randint 5 25)
    ∧ searchSpace.lookup "batch_size"
        = some (ParamSpec.choice [32, 64, 128, 256, 512])
    ∧ searchSpace.lookup "lr" = some (ParamSpec.loguniform (1/100000) (1/10))
    ∧ searchSpace.lookup "weight_decay"
        = some (ParamSpec.loguniform (1/100000) (1/10))
    ∧ ashaScheduler.metric = "composite_metric"
    ∧ ashaScheduler.mode = "min"
    ∧ ashaScheduler.grace_period = 1
    ∧ ashaScheduler.reduction_factor = 2
    ∧ rungBudget ashaScheduler 0 = 1
    ∧ (∀ j, rungBudget ashaScheduler (j + 1)
        = 2 * rungBudget ashaScheduler j) := by
  refine ⟨?_, fun _ => rfl, rfl, rfl, rfl, rfl, rfl, rfl, rfl, rfl, rfl, rfl,
    rfl, rfl, ?_⟩
  · intro trials t h
    unfold getBestTrial at h
    have hmem := List.mem_filter.mp (List.argmin_mem h)
    refine ⟨hmem.1, by simpa using hmem.2, ?_⟩
    intro t2 ht2 hne
    exact List.le_of_mem_argmin
      (List.mem_filter.mpr ⟨ht2, by simpa using hne⟩) h
  · intro j
    show 1 * 2 ^ (j + 1) = 2 * (1 * 2 ^ j)
    rw [pow_succ]
    ring

/-- Witness for C8: among the three concrete trials the one with
last-reported metric 2 is selected. -/
theorem C8_witness :
    Trial.mk 0 [3, 2] 5 ∈ exTrials
    ∧ (Trial.mk 0 [3, 2] 5).results ≠ []
    ∧ ∀ t2 ∈ exTrials, t2.results ≠ [] →
        (lastMetric (Trial.mk 0 [3, 2] 5)).getD 0 ≤ (lastMetric t2).getD 0 :=
  (C8_search_driver).1 exTrials (Trial.mk 0 [3, 2] 5) (by decide)

/-- C10: `evaluate_significance` overwrites (or creates) the `"vul_index"`
column of the caller's dataframe with the index predictions — the mutation
is visible in the caller's dataframe state after the call — leaves all
other columns unchanged, and, when no id is given, writes to a path that
embeds the current number of files in the save directory (so the path
changes as the directory fills). -/
theorem C10_evaluate_significance (df : DataFrame) (preds : List ℚ)
    (dir : String) (n : ℕ) (idArg : Option String) :
    lookupCol (evaluate_significance df preds dir n idArg).1 "vul_index"
        = some preds
    ∧ (∀ c2, c2 ≠ "vul_index" →
        lookupCol (evaluate_significance df preds dir n idArg).1 c2
          = lookupCol df c2)
    ∧ (idArg = none →
        (evaluate_significance df preds dir n idArg).2
          = dir ++ "/index_prediction_" ++ toString n ++ ".dta")
    ∧ savePathOf "/tmp" 0 none ≠ savePathOf "/tmp" 1 none := by
  refine ⟨lookupCol_setCol_self df _ preds, ?_, ?_, by decide⟩
  · intro c2 h
    exact lookupCol_setCol_ne df _ preds c2 h
  · intro h
    subst h
    rfl

/-- Witness for C10: a dataframe that already has a `"vul_index"` column is
overwritten, the other column survives, and the no-id path embeds the file
count 0. -/
theorem C10_witness :
    lookupCol (evaluate_significance [("vul_index", [9]), ("a", [1])] [2]
        "/tmp" 0 none).1 "vul_index" = some [2]
    ∧ lookupCol (evaluate_significance [("vul_index", [9]), ("a", [1])] [2]
        "/tmp" 0 none).1 "a" = some [1]
    ∧ (evaluate_significance [("vul_index", [9]), ("a", [1])] [2] "/tmp" 0
        none).2 = "/tmp" ++ "/index_prediction_" ++ toString 0 ++ ".dta" := by
  refine ⟨(C10_evaluate_significance [("vul_index", [9]), ("a", [1])] [2]
      "/tmp" 0 none).1, ?_, (C10_evaluate_significance [("vul_index", [9]),
      ("a", [1])] [2] "/tmp" 0 none).2.2.1 rfl⟩
  have h := (C10_evaluate_significance [("vul_index", [9]), ("a", [1])] [2]
      "/tmp" 0 none).2.1 "a" (by decide)
  rw [h]
  rfl
